import Mathlib

/-!
Verification development for the Movie Rater Express application.

The embedding covers:
* the JavaScript value/number-coercion model used by the request handlers
  (`Number(...)`, `Number.isInteger(...)`, `isNaN(...)`, `Math.round(...)`);
* the Zod insert schema generated in `src/shared/schema.ts` by drizzle-zod
  (`createInsertSchema(movies).omit({id, createdAt})`);
* the persistence layer `DatabaseStorage` (`getAllMovies`, `getMovieById`,
  `getRatingsForMovie`, `addMovie`, `addRating`, `seedMovies`), with the
  relational store modelled as explicit lists of rows and the SQL aggregates
  (`COALESCE(ROUND(AVG(score)::numeric, 1), 0)`, `COUNT(...)`) as exact
  rational arithmetic;
* the four request handlers of `src/server/routes.ts`.

JavaScript numbers are modelled as exact rationals (`ℚ`), with NaN as the
`none` case of `Option ℚ`; PostgreSQL `numeric` arithmetic is likewise exact.
-/

namespace MovieRater

/-! ### JavaScript values and number coercion -/

/-- A JSON/JavaScript runtime value as seen by the request handlers.  A
string carries both its text and the result of the runtime coercion
`Number(text)` (`none` when that coercion yields NaN). -/
inductive JSValue where
  | num (q : ℚ)
  | nan
  | null
  | undef
  | boolean (b : Bool)
  | str (text : String) (coerced : Option ℚ)
deriving DecidableEq, Repr

/-- ECMAScript `Number(v)`: `none` models NaN.  `Number(null) = 0`,
`Number(undefined) = NaN`, `Number(true) = 1`, `Number(false) = 0`. -/
def toNumber : JSValue → Option ℚ
  | .num q => some q
  | .nan => none
  | .null => some 0
  | .undef => none
  | .boolean b => some (if b then 1 else 0)
  | .str _ c => c

/-- ECMAScript `Number.isInteger` on a finite number: the rational has denominator 1. -/
def isIntegerQ (q : ℚ) : Bool := q.den == 1

/-- The score check of the `POST /api/movies/:id/rate` handler
(`src/server/routes.ts`): `score = Number(req.body.score)` is valid unless
`!Number.isInteger(score) || score < 1 || score > 5`.  `Number.isInteger NaN`
is false, so the NaN case is invalid. -/
def isValidRating (v : JSValue) : Bool :=
  match toNumber v with
  | none => false
  | some score => isIntegerQ score && decide (1 ≤ score) && decide (score ≤ 5)

/-- The year check of the `POST /api/movies` handler
(`src/server/routes.ts`): `year = Number(parsed.year)` is valid unless
`!Number.isInteger(year) || year < 1888 || year > new Date().getFullYear()`.
The current calendar year is passed in as a parameter. -/
def isValidYear (currentYear : ℤ) (v : JSValue) : Bool :=
  match toNumber v with
  | none => false
  | some year =>
      isIntegerQ year && decide (1888 ≤ year) && decide (year ≤ (currentYear : ℚ))

/-! ### Rounding and average computation -/

/-- JavaScript `Math.round`: round half toward positive infinity. -/
def jsRound (x : ℚ) : ℤ := ⌊x + 1 / 2⌋

/-- PostgreSQL `ROUND(x::numeric, 0)`: round half away from zero. -/
def pgRound (x : ℚ) : ℤ := if x < 0 then -⌊-x + 1 / 2⌋ else ⌊x + 1 / 2⌋

/-- The detail handler's average (`src/server/routes.ts`, GET /api/movies/:id):
`ratingScores.length > 0 ? Math.round((sum / length) * 10) / 10 : 0`. -/
def avgOfScores (scores : List ℤ) : ℚ :=
  if 0 < scores.length then
    ((jsRound (((scores.sum : ℤ) : ℚ) / (scores.length : ℚ) * 10) : ℤ) : ℚ) / 10
  else 0

/-- PostgreSQL `ROUND(AVG(score)::numeric, 1)` over a nonempty score multiset (used by
`DatabaseStorage.addRating`, where the set includes the just-inserted row). -/
def pgAvg (scores : List ℤ) : ℚ :=
  ((pgRound (((scores.sum : ℤ) : ℚ) / (scores.length : ℚ) * 10) : ℤ) : ℚ) / 10

/-- PostgreSQL `COALESCE(ROUND(AVG(score)::numeric, 1), 0)` (used by
`DatabaseStorage.getAllMovies`): `AVG` of an empty group is NULL, coalesced
to 0. -/
def pgAvgCoalesce (scores : List ℤ) : ℚ :=
  if scores.isEmpty then 0 else pgAvg scores

/-- Modelled from the spec: `average = round((sum(scores) / count(scores)) *
10) / 10`, rounding to one decimal with round-half-up semantics; the empty
rating set has average 0. -/
def specAverage (scores : List ℤ) : ℚ :=
  if scores.isEmpty then 0
  else ((⌊((scores.sum : ℤ) : ℚ) / (scores.length : ℚ) * 10 + 1 / 2⌋ : ℤ) : ℚ) / 10

/-! ### Data model and store

The relational store (`movies` and `ratings` tables of
`src/shared/schema.ts`) is modelled as lists of rows in insertion order,
together with the serial-id counters.  Timestamps are not modelled; the only
place ordering by `created_at` matters (`getRatingsForMovie`, newest first)
is rendered as reverse insertion order, which is what monotone insertion
timestamps give. -/

/-- A row of the `movies` table (`created_at` omitted). -/
structure Movie where
  id : ℤ
  title : String
  year : ℤ
  genre : String
deriving DecidableEq, Repr

/-- A row of the `ratings` table (`created_at` omitted).  The `movie_id`
column is an integer column, but the value flowing into
`DatabaseStorage.addRating` is the JavaScript number `Number(req.params.id)`,
so the field is kept at ℚ; every write made through the API stores an
integral value. -/
structure Rating where
  id : ℤ
  movieId : ℚ
  score : ℤ
deriving DecidableEq, Repr

/-- The relational store: the two tables plus their serial-id sequences. -/
structure Store where
  movies : List Movie
  ratings : List Rating
  nextMovieId : ℤ
  nextRatingId : ℤ
deriving DecidableEq, Repr

/-- The score column of all rating rows of one movie, in insertion order
(the order is irrelevant to every aggregate computed from it). -/
def scoresFor (s : Store) (movieId : ℚ) : List ℤ :=
  (s.ratings.filter (fun r => r.movieId == movieId)).map (fun r => r.score)

/-! ### DatabaseStorage operations (`src/server/storage.ts`) -/

/-- Storage operation `getMovieById(id)`: first row of `SELECT * FROM movies WHERE id = $1` or
undefined.  The lookup key is a JavaScript number, so an integer column is
compared against a possibly-non-integral rational. -/
def getMovieById (s : Store) (id : ℚ) : Option Movie :=
  s.movies.find? (fun m => ((m.id : ℚ) == id))

/-- Storage operation `getRatingsForMovie(movieId)`: all scores of the movie, ordered by
`created_at` descending, i.e. newest (latest-inserted) first. -/
def getRatingsForMovie (s : Store) (movieId : ℚ) : List ℤ :=
  ((s.ratings.filter (fun r => r.movieId == movieId)).reverse).map
    (fun r => r.score)

/-- Storage operation `addMovie(data)`: insert a movie row, returning the persisted record
with its generated serial id. -/
def addMovie (s : Store) (title : String) (year : ℤ) (genre : String) :
    Store × Movie :=
  let m : Movie := ⟨s.nextMovieId, title, year, genre⟩
  ({ s with movies := s.movies ++ [m], nextMovieId := s.nextMovieId + 1 }, m)

/-- Storage operation `addRating(movieId, score)`: insert a rating row, then recompute
`ROUND(AVG(score)::numeric, 1)` and `COUNT(id)::int` for that movie over the
store that already contains the new row. -/
def addRating (s : Store) (movieId : ℚ) (score : ℤ) : Store × ℚ × ℕ :=
  let s1 : Store :=
    { s with
      ratings := s.ratings ++ [⟨s.nextRatingId, movieId, score⟩]
      nextRatingId := s.nextRatingId + 1 }
  (s1, pgAvg (scoresFor s1 movieId), (scoresFor s1 movieId).length)

/-- A movie row joined with its aggregate rating stats (`MovieWithStats` of
`src/shared/schema.ts`, with the movie columns gathered in one field). -/
structure MovieWithStats where
  movie : Movie
  avgRating : ℚ
  totalRatings : ℕ
deriving DecidableEq, Repr

/-- Ordering used by `ORDER BY movies.title ASC`. -/
def titleLE (a b : Movie) : Prop := a.title ≤ b.title

instance : DecidableRel titleLE := fun a b =>
  inferInstanceAs (Decidable (a.title ≤ b.title))

instance : IsTotal Movie titleLE := ⟨fun a b => le_total a.title b.title⟩

instance : IsTrans Movie titleLE := ⟨fun _ _ _ h1 h2 => le_trans h1 h2⟩

/-- The per-movie aggregation of `getAllMovies`:
`COALESCE(ROUND(AVG(score)::numeric, 1), 0)` and `COUNT(ratings.id)::int`
over the left-joined rating rows of the movie. -/
def movieStats (s : Store) (m : Movie) : MovieWithStats :=
  ⟨m, pgAvgCoalesce (scoresFor s (m.id : ℚ)), (scoresFor s (m.id : ℚ)).length⟩

/-- Storage operation `getAllMovies()`: every movie left-joined with its aggregate rating
stats, grouped by movie and ordered by title ascending. -/
def getAllMovies (s : Store) : List MovieWithStats :=
  (s.movies.insertionSort titleLE).map (movieStats s)

/-- The fixed seed catalog of `DatabaseStorage.seedMovies` (title, year,
genre). -/
def seedCatalog : List (String × ℤ × String) :=
  [("The Godfather", 1972, "Crime"),
   ("Pulp Fiction", 1994, "Crime"),
   ("The Shawshank Redemption", 1994, "Drama"),
   ("Schindler\x27s List", 1993, "Drama"),
   ("2001: A Space Odyssey", 1968, "Sci-Fi"),
   ("Blade Runner", 1982, "Sci-Fi"),
   ("Chinatown", 1974, "Thriller"),
   ("Mulholland Drive", 2001, "Thriller"),
   ("Singin\x27 in the Rain", 1952, "Musical"),
   ("Sunset Boulevard", 1950, "Drama")]

/-- The fixed sample ratings of `seedMovies`, as (index into `allMovies`,
score) pairs mirroring `allMovies[i].id`. -/
def seedRatingSpec : List (ℕ × ℤ) :=
  [(0, 5), (0, 5), (0, 4), (1, 4), (1, 5), (2, 5), (2, 5), (2, 5),
   (3, 5), (3, 4), (4, 4), (4, 3), (5, 4), (5, 4), (5, 5), (6, 3),
   (7, 4), (7, 3), (8, 5), (8, 4), (8, 5), (9, 4), (9, 3)]

/-- Insert one rating row (helper mirroring a single element of the batch
`db.insert(ratings).values(...)`). -/
def insertRatingRow (st : Store) (movieId : ℚ) (score : ℤ) : Store :=
  { st with
    ratings := st.ratings ++ [⟨st.nextRatingId, movieId, score⟩]
    nextRatingId := st.nextRatingId + 1 }

/-- Storage operation `seedMovies()`: if any movie row exists do nothing; otherwise insert the
fixed 10-film catalog, re-select all movies, and insert the fixed sample
ratings keyed on `allMovies[i].id`.  (On the seeded store every index `i`
used by `seedRatingSpec` is in range; an out-of-range index — unreachable —
is skipped rather than throwing.) -/
def seedMovies (s : Store) : Store :=
  if s.movies.isEmpty then
    let s1 := seedCatalog.foldl
      (fun st tyg => (addMovie st tyg.1 tyg.2.1 tyg.2.2).1) s
    let allMovies := s1.movies
    seedRatingSpec.foldl
      (fun st isc =>
        match allMovies[isc.1]? with
        | some m => insertRatingRow st (m.id : ℚ) isc.2
        | none => st) s1
  else s

/-! ### insertMovieSchema (`src/shared/schema.ts`)

`insertMovieSchema = createInsertSchema(movies).omit({id: true, createdAt:
true})`.  drizzle-zod maps the `text` columns `title` and `genre` to Zod
string validators (with no minimum-length refinement) and the `integer`
column `year` to a Zod number validator; `notNull()` columns without a
default are required; `id` and `createdAt` are omitted, and Zod strips
unrecognised keys. -/

/-- A JSON body for movie creation: the three recognised fields, a possible
`id` field, and arbitrary further fields. -/
structure CreateBody where
  title : Option JSValue
  year : Option JSValue
  genre : Option JSValue
  id : Option JSValue
  extra : List (String × JSValue)
deriving DecidableEq, Repr

/-- A required Zod string field: present and a string (of any length). -/
def zodString : Option JSValue → Option String
  | some (.str t _) => some t
  | _ => none

/-- A required Zod number field: present and a finite number (NaN, strings,
null, undefined and booleans are rejected; Zod does not coerce). -/
def zodNumber : Option JSValue → Option ℚ
  | some (.num q) => some q
  | _ => none

/-- Zod parse `insertMovieSchema.parse(body)`: `some (title, year, genre)` on success
(the parsed object carries only the three schema keys — `id` and extra
fields are stripped), `none` when a `ZodError` is thrown. -/
def insertMovieParse (b : CreateBody) : Option (String × ℚ × String) :=
  match zodString b.title, zodNumber b.year, zodString b.genre with
  | some t, some y, some g => some (t, y, g)
  | _, _, _ => none

/-! ### Request handlers (`src/server/routes.ts`) -/

/-- Response of `POST /api/movies`. -/
inductive CreateResp where
  | invalidFields
  | invalidYear
  | created (m : Movie)
deriving DecidableEq, Repr

/-- HTTP status of a `POST /api/movies` response. -/
def CreateResp.status : CreateResp → ℕ
  | .invalidFields => 400
  | .invalidYear => 400
  | .created _ => 201

/-- Error payload of a `POST /api/movies` response. -/
def CreateResp.error : CreateResp → Option String
  | .invalidFields => some "Invalid fields"
  | .invalidYear => some "Invalid year"
  | .created _ => none

/-- The `POST /api/movies` handler: `insertMovieSchema.parse(req.body)`
(`ZodError` → 400 "Invalid fields"), then `year = Number(parsed.year)` with
the inline range check (failure → 400 "Invalid year"), then
`storage.addMovie({...parsed, year})` → 201 with the created record. -/
def createMovieHandler (currentYear : ℤ) (s : Store) (body : CreateBody) :
    Store × CreateResp :=
  match insertMovieParse body with
  | none => (s, .invalidFields)
  | some (t, y, g) =>
      if ¬ (isIntegerQ y = true) ∨ y < 1888 ∨ (currentYear : ℚ) < y then
        (s, .invalidYear)
      else
        let r := addMovie s t y.num g
        (r.1, .created r.2)

/-- Response of `GET /api/movies/:id`. -/
inductive DetailResp where
  | invalidId
  | notFound
  | ok (movie : Movie) (avgRating : ℚ) (totalRatings : ℕ) (ratings : List ℤ)
deriving DecidableEq, Repr

/-- HTTP status of a `GET /api/movies/:id` response. -/
def DetailResp.status : DetailResp → ℕ
  | .invalidId => 400
  | .notFound => 404
  | .ok _ _ _ _ => 200

/-- Error payload of a `GET /api/movies/:id` response. -/
def DetailResp.error : DetailResp → Option String
  | .invalidId => some "Invalid ID"
  | .notFound => some "Not found"
  | .ok _ _ _ _ => none

/-- The `GET /api/movies/:id` handler: `id = Number(req.params.id)`;
`isNaN(id)` → 400 "Invalid ID"; movie lookup miss → 404 "Not found";
otherwise 200 with the movie, the rounded average, the count, and the raw
scores. -/
def getMovieDetailHandler (s : Store) (idv : JSValue) : DetailResp :=
  match toNumber idv with
  | none => .invalidId
  | some id =>
      match getMovieById s id with
      | none => .notFound
      | some movie =>
          let ratingScores := getRatingsForMovie s id
          .ok movie (avgOfScores ratingScores) ratingScores.length ratingScores

/-- Response of `POST /api/movies/:id/rate`. -/
inductive RateResp where
  | invalidId
  | invalidRating
  | notFound
  | ok (avgRating : ℚ) (totalRatings : ℕ)
deriving DecidableEq, Repr

/-- HTTP status of a `POST /api/movies/:id/rate` response. -/
def RateResp.status : RateResp → ℕ
  | .invalidId => 400
  | .invalidRating => 400
  | .notFound => 404
  | .ok _ _ => 200

/-- Error payload of a `POST /api/movies/:id/rate` response. -/
def RateResp.error : RateResp → Option String
  | .invalidId => some "Invalid ID"
  | .invalidRating => some "Invalid rating"
  | .notFound => some "Not found"
  | .ok _ _ => none

/-- The `POST /api/movies/:id/rate` handler: `id = Number(req.params.id)`,
`score = Number(req.body.score)`; `isNaN(id)` → 400 "Invalid ID"; then
`!Number.isInteger(score) || score < 1 || score > 5` → 400 "Invalid rating";
then movie lookup miss → 404 "Not found"; otherwise insert the rating and
return 200 with the recomputed `{avgRating, totalRatings}`. -/
def rateMovieHandler (s : Store) (idv scorev : JSValue) : Store × RateResp :=
  match toNumber idv with
  | none => (s, .invalidId)
  | some id =>
      match toNumber scorev with
      | none => (s, .invalidRating)
      | some score =>
          if ¬ (isIntegerQ score = true) ∨ score < 1 ∨ 5 < score then
            (s, .invalidRating)
          else
            match getMovieById s id with
            | none => (s, .notFound)
            | some _ =>
                let r := addRating s id score.num
                (r.1, .ok r.2.1 r.2.2)

/-! ### Helper lemmas -/

/-- The rating row appended by `addRating` matches its own movie filter, so
the post-insert score list is the pre-insert one with the new score at the
end. -/
theorem scoresFor_addRating (s : Store) (movieId : ℚ) (score : ℤ) :
    scoresFor (addRating s movieId score).1 movieId =
      scoresFor s movieId ++ [score] := by
  simp [addRating, scoresFor, List.filter_append]

/-- The inline score condition of the rate handler is the negation of
`isValidRating` once the coercion is fixed. -/
theorem rate_cond_iff_not_valid (v : JSValue) (q : ℚ)
    (h : toNumber v = some q) :
    (¬ (isIntegerQ q = true) ∨ q < 1 ∨ 5 < q) ↔ isValidRating v = false := by
  rcases hI : isIntegerQ q with _ | _ <;>
    simp [isValidRating, h, hI, not_le, or_iff_not_imp_left, or_comm]

/-- The inline year condition of the create handler is the negation of
`isValidYear` once the coercion is fixed. -/
theorem year_cond_iff_not_valid (cy : ℤ) (v : JSValue) (q : ℚ)
    (h : toNumber v = some q) :
    (¬ (isIntegerQ q = true) ∨ q < 1888 ∨ (cy : ℚ) < q) ↔
      isValidYear cy v = false := by
  rcases hI : isIntegerQ q with _ | _ <;>
    simp [isValidYear, h, hI, not_le, or_iff_not_imp_left, or_comm]

/-! ### C1: the average computation policy -/

/-- C1: for every list of scores the detail handler's average equals the
spec's `round((sum / count) * 10) / 10` with round-half-up, the empty list
averages to 0, the store-side aggregate (round half away from zero over
nonnegative scores) agrees, and the four concrete examples hold:
`average [] = 0`, `average [5,4,4] = 4.3`, `average [4,2] = 3`,
`average [1,2,3] = 2`. -/
theorem avgOfScores_matches_spec :
    (∀ scores : List ℤ, avgOfScores scores = specAverage scores) ∧
    (∀ scores : List ℤ, (∀ x ∈ scores, 0 ≤ x) →
      pgAvgCoalesce scores = specAverage scores) ∧
    avgOfScores [] = 0 ∧ avgOfScores [5, 4, 4] = 43 / 10 ∧
    avgOfScores [4, 2] = 3 ∧ avgOfScores [1, 2, 3] = 2 := by
  refine ⟨?_, ?_, by simp [avgOfScores], ?_, ?_, ?_⟩
  · intro scores
    cases scores with
    | nil => simp [avgOfScores, specAverage]
    | cons a l => simp [avgOfScores, specAverage, jsRound]
  · intro scores h
    cases scores with
    | nil => simp [pgAvgCoalesce, specAverage]
    | cons a l =>
        have hsum : (0 : ℤ) ≤ (a :: l).sum := List.sum_nonneg h
        have hx : (0 : ℚ) ≤
            (((a :: l).sum : ℤ) : ℚ) / (((a :: l).length : ℕ) : ℚ) * 10 := by
          have h1 : (0 : ℚ) ≤ (((a :: l).sum : ℤ) : ℚ) := by exact_mod_cast hsum
          have h2 : (0 : ℚ) ≤ (((a :: l).length : ℕ) : ℚ) := by positivity
          exact mul_nonneg (div_nonneg h1 h2) (by norm_num)
        unfold pgAvgCoalesce specAverage pgAvg pgRound
        rw [if_neg (by simp : ¬((a :: l).isEmpty = true)),
          if_neg (by simp : ¬((a :: l).isEmpty = true)),
          if_neg (not_lt.mpr hx)]
  · norm_num [avgOfScores, jsRound]
  · norm_num [avgOfScores, jsRound]
  · norm_num [avgOfScores, jsRound]

/-- Witness for C1: the nonnegativity hypothesis of the store-side
conjunct discharged at the concrete score list `[5, 4, 4]`. -/
theorem avgOfScores_matches_spec_witness :
    pgAvgCoalesce [5, 4, 4] = specAverage [5, 4, 4] :=
  avgOfScores_matches_spec.2.1 [5, 4, 4] (by decide)

/-! ### C2: the rating check -/

/-- C2: `isValidRating v` holds iff the coercion of `v` is a finite number
that is an integer between 1 and 5; non-numeric strings, null, undefined,
NaN and 3.5 are rejected, and `true` (which coerces to 1) is accepted. -/
theorem isValidRating_spec :
    (∀ v : JSValue, isValidRating v = true ↔
      ∃ q : ℚ, toNumber v = some q ∧ q.den = 1 ∧ 1 ≤ q ∧ q ≤ 5) ∧
    isValidRating (.str "great" none) = false ∧
    isValidRating .null = false ∧
    isValidRating .undef = false ∧
    isValidRating .nan = false ∧
    isValidRating (.num (Rat.divInt 7 2)) = false ∧
    isValidRating (.boolean true) = true ∧
    toNumber (.boolean true) = some 1 := by
  refine ⟨?_, by decide, by decide, by decide, by decide, by decide,
    by decide, by decide⟩
  intro v
  cases h : toNumber v with
  | none => simp [isValidRating, h]
  | some q => simp [isValidRating, h, isIntegerQ, and_assoc]

/-! ### C3: the year check -/

/-- C3: `isValidYear cy v` holds iff the coercion of `v` is an integer with
`1888 ≤ v ≤ cy` (the current calendar year); 1887 is rejected, 1888 and the
current year are accepted (when the current year is at least 1888), and the
year after the current year is rejected. -/
theorem isValidYear_spec :
    (∀ (cy : ℤ) (v : JSValue), isValidYear cy v = true ↔
      ∃ q : ℚ, toNumber v = some q ∧ q.den = 1 ∧ 1888 ≤ q ∧ q ≤ (cy : ℚ)) ∧
    (∀ cy : ℤ, isValidYear cy (.num 1887) = false) ∧
    (∀ cy : ℤ, 1888 ≤ cy → isValidYear cy (.num 1888) = true) ∧
    (∀ cy : ℤ, 1888 ≤ cy → isValidYear cy (.num (cy : ℚ)) = true) ∧
    (∀ cy : ℤ, isValidYear cy (.num ((cy : ℚ) + 1)) = false) := by
  refine ⟨?_, ?_, ?_, ?_, ?_⟩
  · intro cy v
    cases h : toNumber v with
    | none => simp [isValidYear, h]
    | some q => simp [isValidYear, h, isIntegerQ, and_assoc]
  · intro cy
    simp only [isValidYear, toNumber, isIntegerQ]
    norm_num
  · intro cy h
    have h1888 : ((1888 : ℚ) ≤ (cy : ℚ)) := by exact_mod_cast h
    simp only [isValidYear, toNumber, isIntegerQ]
    norm_num [h1888]
  · intro cy h
    have h1888 : ((1888 : ℚ) ≤ (cy : ℚ)) := by exact_mod_cast h
    simp [isValidYear, toNumber, isIntegerQ, Rat.den_intCast, h1888]
  · intro cy
    have : ¬ ((cy : ℚ) + 1 ≤ (cy : ℚ)) := by norm_num
    simp [isValidYear, toNumber, this]

/-- Witness for C3: the boundary behavior at the concrete current year
2026. -/
theorem isValidYear_spec_witness :
    isValidYear 2026 (.num 1887) = false ∧
    isValidYear 2026 (.num 1888) = true ∧
    isValidYear 2026 (.num ((2026 : ℤ) : ℚ)) = true ∧
    isValidYear 2026 (.num (((2026 : ℤ) : ℚ) + 1)) = false :=
  ⟨isValidYear_spec.2.1 2026, isValidYear_spec.2.2.1 2026 (by decide),
   isValidYear_spec.2.2.2.1 2026 (by decide), isValidYear_spec.2.2.2.2 2026⟩

/-! ### Stores used for concrete witnesses -/

/-- The empty store (fresh database). -/
def emptyStore : Store := ⟨[], [], 1, 1⟩

/-- A store holding one movie with id 1 and no ratings. -/
def witnessStore : Store := ⟨[⟨1, "The Godfather", 1972, "Crime"⟩], [], 2, 1⟩

/-- If the coercion is fixed and the inline score condition fails,
`isValidRating` holds. -/
theorem isValidRating_of_not_cond (v : JSValue) (q : ℚ)
    (h : toNumber v = some q)
    (hc : ¬ (¬ (isIntegerQ q = true) ∨ q < 1 ∨ 5 < q)) :
    isValidRating v = true := by
  cases hval : isValidRating v with
  | false => exact absurd ((rate_cond_iff_not_valid v q h).mpr hval) hc
  | true => rfl

/-! ### C4: schema validation of movie creation -/

/-- C4 (violated by the code): `insertMovieSchema` — the drizzle-zod insert
schema with plain string validators for the `text` columns — accepts an
empty `title` and an empty `genre`, and the create handler then returns 201
with the empty-titled record; the repo's own schema and route tests assert
these inputs must be rejected. -/
theorem insertMovieSchema_accepts_empty_strings :
    insertMovieParse ⟨some (.str "" (some 0)), some (.num 1942),
      some (.str "Drama" none), none, []⟩ = some ("", 1942, "Drama") ∧
    insertMovieParse ⟨some (.str "Casablanca" none), some (.num 1942),
      some (.str "" (some 0)), none, []⟩ = some ("Casablanca", 1942, "") ∧
    (createMovieHandler 2026 emptyStore ⟨some (.str "" (some 0)),
      some (.num 1942), some (.str "Drama" none), none, []⟩).2 =
      .created ⟨1, "", 1942, "Drama"⟩ := by
  refine ⟨rfl, rfl, ?_⟩
  norm_num [createMovieHandler, insertMovieParse, zodString, zodNumber,
    isIntegerQ, addMovie, emptyStore]

/-! ### C5: check order of the rate handler -/

/-- C5: the rate handler's checks run in the fixed order id → score →
lookup → insert: a NaN id yields 400 "Invalid ID" before the score check, an
invalid score yields 400 "Invalid rating" before the lookup, a missing movie
yields 404 "Not found" before the insert, the store is only changed on the
success path (so no rating row is inserted for a nonexistent movie or an
invalid score), and success returns 200 with the recomputed stats. -/
theorem rate_handler_checks_order (s : Store) (idv scorev : JSValue) :
    (toNumber idv = none → rateMovieHandler s idv scorev = (s, .invalidId)) ∧
    (∀ id : ℚ, toNumber idv = some id → isValidRating scorev = false →
      rateMovieHandler s idv scorev = (s, .invalidRating)) ∧
    (∀ id : ℚ, toNumber idv = some id → isValidRating scorev = true →
      getMovieById s id = none →
      rateMovieHandler s idv scorev = (s, .notFound)) ∧
    (∀ (id q : ℚ) (m : Movie), toNumber idv = some id →
      toNumber scorev = some q → isValidRating scorev = true →
      getMovieById s id = some m →
      rateMovieHandler s idv scorev =
        ((addRating s id q.num).1,
          .ok (addRating s id q.num).2.1 (addRating s id q.num).2.2)) ∧
    (∀ (s' : Store) (r : RateResp), rateMovieHandler s idv scorev = (s', r) →
      s'.ratings ≠ s.ratings →
      isValidRating scorev = true ∧
      ∃ (id : ℚ) (m : Movie), toNumber idv = some id ∧
        getMovieById s id = some m ∧ ∃ (a : ℚ) (t : ℕ), r = .ok a t) ∧
    (RateResp.status .invalidId = 400 ∧
     RateResp.error .invalidId = some "Invalid ID" ∧
     RateResp.status .invalidRating = 400 ∧
     RateResp.error .invalidRating = some "Invalid rating" ∧
     RateResp.status .notFound = 404 ∧
     RateResp.error .notFound = some "Not found" ∧
     ∀ (a : ℚ) (t : ℕ), RateResp.status (.ok a t) = 200) := by
  refine ⟨?_, ?_, ?_, ?_, ?_,
    by simp [RateResp.status, RateResp.error]⟩
  · intro h
    simp [rateMovieHandler, h]
  · intro id hid hval
    cases hsc : toNumber scorev with
    | none => simp [rateMovieHandler, hid, hsc]
    | some q =>
        have hc : ¬ (isIntegerQ q = true) ∨ q < 1 ∨ 5 < q :=
          (rate_cond_iff_not_valid scorev q hsc).mpr hval
        simp only [rateMovieHandler, hid, hsc]
        rw [if_pos hc]
  · intro id hid hval hnone
    obtain ⟨q, hsc⟩ : ∃ q, toNumber scorev = some q := by
      cases hsc : toNumber scorev with
      | none => simp [isValidRating, hsc] at hval
      | some q => exact ⟨q, rfl⟩
    have hc : ¬ (¬ (isIntegerQ q = true) ∨ q < 1 ∨ 5 < q) := by
      rw [rate_cond_iff_not_valid scorev q hsc]
      simp [hval]
    simp only [rateMovieHandler, hid, hsc]
    rw [if_neg hc]
    simp [hnone]
  · intro id q m hid hsc hval hm
    have hc : ¬ (¬ (isIntegerQ q = true) ∨ q < 1 ∨ 5 < q) := by
      rw [rate_cond_iff_not_valid scorev q hsc]
      simp [hval]
    simp only [rateMovieHandler, hid, hsc]
    rw [if_neg hc]
    simp [hm]
  · intro s' r heq hne
    cases hid : toNumber idv with
    | none =>
        simp only [rateMovieHandler, hid] at heq
        injection heq with h1 _
        exact absurd (congrArg Store.ratings h1.symm) hne
    | some id =>
        cases hsc : toNumber scorev with
        | none =>
            simp only [rateMovieHandler, hid, hsc] at heq
            injection heq with h1 _
            exact absurd (congrArg Store.ratings h1.symm) hne
        | some q =>
            by_cases hc : (¬ (isIntegerQ q = true) ∨ q < 1 ∨ 5 < q)
            · simp only [rateMovieHandler, hid, hsc] at heq
              rw [if_pos hc] at heq
              injection heq with h1 _
              exact absurd (congrArg Store.ratings h1.symm) hne
            · cases hm : getMovieById s id with
              | none =>
                  simp only [rateMovieHandler, hid, hsc] at heq
                  rw [if_neg hc, hm] at heq
                  injection heq with h1 _
                  exact absurd (congrArg Store.ratings h1.symm) hne
              | some m =>
                  simp only [rateMovieHandler, hid, hsc] at heq
                  rw [if_neg hc, hm] at heq
                  injection heq with _ h2
                  exact ⟨isValidRating_of_not_cond scorev q hsc hc,
                    id, m, rfl, hm, _, _, h2.symm⟩

/-- Witness for C5: on a one-movie store, a NaN id beats an invalid score,
an invalid score beats a missing movie, and a valid score on a missing
movie yields not-found with the store unchanged. -/
theorem rate_handler_checks_order_witness :
    rateMovieHandler witnessStore (.str "abc" none) (.num 0) =
      (witnessStore, .invalidId) ∧
    rateMovieHandler witnessStore (.str "999" (some 999)) (.num 0) =
      (witnessStore, .invalidRating) ∧
    rateMovieHandler witnessStore (.str "999" (some 999)) (.num 4) =
      (witnessStore, .notFound) := by
  have hnone : getMovieById witnessStore 999 = none := by
    have h : (((1 : ℚ)) == (999 : ℚ)) = false :=
      beq_eq_false_iff_ne.mpr (by norm_num)
    simp [getMovieById, witnessStore, List.find?, h]
  exact ⟨(rate_handler_checks_order witnessStore _ _).1 rfl,
    (rate_handler_checks_order witnessStore _ _).2.1 999 rfl (by decide),
    (rate_handler_checks_order witnessStore _ _).2.2.1 999 rfl (by decide)
      hnone⟩

/-! ### C6: check order of the create handler -/

/-- C6: the create handler runs schema validation before the year range
check: schema failure yields 400 "Invalid fields" (also when the year is
simultaneously out of range), schema success with a year failing the range
check yields 400 "Invalid year", and passing both yields 201 with the
created record. -/
theorem create_handler_checks_order (cy : ℤ) (s : Store) (body : CreateBody) :
    (insertMovieParse body = none →
      createMovieHandler cy s body = (s, .invalidFields)) ∧
    (∀ (t : String) (y : ℚ) (g : String),
      insertMovieParse body = some (t, y, g) →
      isValidYear cy (.num y) = false →
      createMovieHandler cy s body = (s, .invalidYear)) ∧
    (∀ (t : String) (y : ℚ) (g : String),
      insertMovieParse body = some (t, y, g) →
      isValidYear cy (.num y) = true →
      createMovieHandler cy s body =
        ((addMovie s t y.num g).1, .created (addMovie s t y.num g).2)) ∧
    (CreateResp.status .invalidFields = 400 ∧
     CreateResp.error .invalidFields = some "Invalid fields" ∧
     CreateResp.status .invalidYear = 400 ∧
     CreateResp.error .invalidYear = some "Invalid year" ∧
     ∀ m : Movie, CreateResp.status (.created m) = 201 ∧
       CreateResp.error (.created m) = none) := by
  refine ⟨?_, ?_, ?_, by simp [CreateResp.status, CreateResp.error]⟩
  · intro h
    simp [createMovieHandler, h]
  · intro t y g hp hval
    have hc : ¬ (isIntegerQ y = true) ∨ y < 1888 ∨ (cy : ℚ) < y :=
      (year_cond_iff_not_valid cy (.num y) y rfl).mpr hval
    simp only [createMovieHandler, hp]
    rw [if_pos hc]
  · intro t y g hp hval
    have hc : ¬ (¬ (isIntegerQ y = true) ∨ y < 1888 ∨ (cy : ℚ) < y) := by
      rw [year_cond_iff_not_valid cy (.num y) y rfl]
      simp [hval]
    simp only [createMovieHandler, hp]
    rw [if_neg hc]

/-- Witness for C6: a body missing its title and carrying the out-of-range
year 1887 still gets "Invalid fields" (schema first); a schema-valid body
with year 1887 gets "Invalid year"; Casablanca (1942) is created. -/
theorem create_handler_checks_order_witness :
    createMovieHandler 2026 emptyStore
      ⟨none, some (.num 1887), some (.str "Drama" none), none, []⟩ =
      (emptyStore, .invalidFields) ∧
    createMovieHandler 2026 emptyStore
      ⟨some (.str "Early Film" none), some (.num 1887),
        some (.str "Drama" none), none, []⟩ = (emptyStore, .invalidYear) ∧
    createMovieHandler 2026 emptyStore
      ⟨some (.str "Casablanca" none), some (.num 1942),
        some (.str "Drama" none), none, []⟩ =
      ((addMovie emptyStore "Casablanca" (1942 : ℚ).num "Drama").1,
        .created (addMovie emptyStore "Casablanca" (1942 : ℚ).num "Drama").2) :=
  ⟨(create_handler_checks_order 2026 emptyStore _).1 rfl,
   (create_handler_checks_order 2026 emptyStore _).2.1 "Early Film" 1887
     "Drama" rfl (by decide),
   (create_handler_checks_order 2026 emptyStore _).2.2.1 "Casablanca" 1942
     "Drama" rfl (by decide)⟩

/-! ### C7: getAllMovies joins every movie with its stats, sorted by title -/

/-- C7: `getAllMovies` returns a permutation of the whole movie table
(outer join: nothing is dropped), ordered by title ascending, each movie
carrying its aggregate stats; a movie with no ratings appears with
`avgRating = 0` and `totalRatings = 0`. -/
theorem getAllMovies_spec (s : Store) :
    ((getAllMovies s).map MovieWithStats.movie).Perm s.movies ∧
    (getAllMovies s).Pairwise (fun a b => a.movie.title ≤ b.movie.title) ∧
    (∀ m ∈ s.movies, movieStats s m ∈ getAllMovies s) ∧
    (∀ x ∈ getAllMovies s,
      x.avgRating = pgAvgCoalesce (scoresFor s (x.movie.id : ℚ)) ∧
      x.totalRatings = (scoresFor s (x.movie.id : ℚ)).length) ∧
    (∀ x ∈ getAllMovies s, scoresFor s (x.movie.id : ℚ) = [] →
      x.avgRating = 0 ∧ x.totalRatings = 0) := by
  refine ⟨?_, ?_, ?_, ?_, ?_⟩
  · have h : (getAllMovies s).map MovieWithStats.movie =
        s.movies.insertionSort titleLE := by
      simp [getAllMovies, List.map_map, movieStats, Function.comp_def]
    rw [h]
    exact List.perm_insertionSort titleLE s.movies
  · simp only [getAllMovies, List.pairwise_map]
    exact List.sorted_insertionSort titleLE s.movies
  · intro m hm
    simp only [getAllMovies]
    exact List.mem_map_of_mem _ ((List.mem_insertionSort titleLE).mpr hm)
  · intro x hx
    simp only [getAllMovies] at hx
    obtain ⟨m, _, rfl⟩ := List.mem_map.mp hx
    simp [movieStats]
  · intro x hx hsc
    simp only [getAllMovies] at hx
    obtain ⟨m, _, rfl⟩ := List.mem_map.mp hx
    simp only [movieStats] at hsc ⊢
    simp [hsc, pgAvgCoalesce]

/-- Witness for C7: in the one-movie zero-rating store the movie appears in
the listing with average 0 and count 0. -/
theorem getAllMovies_spec_witness :
    movieStats witnessStore ⟨1, "The Godfather", 1972, "Crime"⟩ ∈
      getAllMovies witnessStore ∧
    (movieStats witnessStore ⟨1, "The Godfather", 1972, "Crime"⟩).avgRating
      = 0 ∧
    (movieStats witnessStore ⟨1, "The Godfather", 1972, "Crime"⟩).totalRatings
      = 0 := by
  have hmem := (getAllMovies_spec witnessStore).2.2.1
    ⟨1, "The Godfather", 1972, "Crime"⟩ (by simp [witnessStore])
  have hzero := (getAllMovies_spec witnessStore).2.2.2.2 _ hmem
    (by simp [scoresFor, witnessStore])
  exact ⟨hmem, hzero.1, hzero.2⟩

/-! ### C8: seedMovies is idempotent -/

/-- The sample-rating fold of `seedMovies` never touches the movie table. -/
theorem movies_ratingFold (l : List (ℕ × ℤ)) (am : List Movie) (st : Store) :
    (l.foldl (fun st isc =>
      match am[isc.1]? with
      | some m => insertRatingRow st (m.id : ℚ) isc.2
      | none => st) st).movies = st.movies := by
  induction l generalizing st with
  | nil => rfl
  | cons hd tl ih =>
      rw [List.foldl_cons, ih]
      cases h : am[hd.1]? with
      | none => simp [h]
      | some m => simp [h, insertRatingRow]

/-- The catalog fold of `seedMovies` inserts one movie row per catalog
entry. -/
theorem length_catalogFold (l : List (String × ℤ × String)) (st : Store) :
    (l.foldl (fun st tyg =>
      (addMovie st tyg.1 tyg.2.1 tyg.2.2).1) st).movies.length =
      st.movies.length + l.length := by
  induction l generalizing st with
  | nil => rfl
  | cons hd tl ih =>
      rw [List.foldl_cons, ih]
      simp [addMovie]
      omega

/-- Running `seedMovies` does nothing on a store that already has a movie. -/
theorem seedMovies_of_ne_nil (s : Store) (h : s.movies ≠ []) :
    seedMovies s = s := by
  rw [seedMovies, if_neg]
  simpa using h

/-- Seeding an empty movie table inserts exactly the 10 catalog films. -/
theorem seedMovies_movies_length (s : Store) (h : s.movies = []) :
    (seedMovies s).movies.length = 10 := by
  rw [seedMovies, if_pos (by simp [h])]
  rw [movies_ratingFold, length_catalogFold, h]
  rfl

/-- C8: `seedMovies` is idempotent — it is the identity on any store that
already holds a movie, running it twice equals running it once, and from
the empty store it inserts exactly the 10-film catalog and the 23 sample
ratings. -/
theorem seedMovies_idempotent :
    (∀ s : Store, s.movies ≠ [] → seedMovies s = s) ∧
    (∀ s : Store, seedMovies (seedMovies s) = seedMovies s) ∧
    (seedMovies emptyStore).movies.length = 10 ∧
    (seedMovies emptyStore).ratings.length = 23 := by
  refine ⟨seedMovies_of_ne_nil, ?_, ?_, ?_⟩
  · intro s
    by_cases h : s.movies = []
    · have hlen := seedMovies_movies_length s h
      apply seedMovies_of_ne_nil
      intro hnil
      rw [hnil] at hlen
      simp at hlen
    · rw [seedMovies_of_ne_nil s h, seedMovies_of_ne_nil s h]
  · norm_num [seedMovies, seedCatalog, seedRatingSpec, addMovie,
      insertRatingRow, List.foldl, emptyStore]
  · norm_num [seedMovies, seedCatalog, seedRatingSpec, addMovie,
      insertRatingRow, List.foldl, emptyStore]

/-- Witness for C8: the nonempty-store hypothesis discharged at the
one-movie store. -/
theorem seedMovies_idempotent_witness :
    seedMovies witnessStore = witnessStore :=
  seedMovies_idempotent.1 witnessStore (by simp [witnessStore])

/-! ### C9: addRating is read-your-write consistent -/

/-- C9: for a valid score, `addRating` returns a count one greater than the
movie's pre-insert rating count and the one-decimal-rounded mean over the
pre-insert scores together with the new score, and the post-insert store
holds exactly the old scores plus the new one. -/
theorem addRating_spec (s : Store) (movieId : ℚ) (score : ℤ)
    (_h1 : 1 ≤ score) (_h5 : score ≤ 5) :
    (addRating s movieId score).2.2 = (scoresFor s movieId).length + 1 ∧
    (addRating s movieId score).2.1 =
      ((pgRound ((((scoresFor s movieId).sum + score : ℤ) : ℚ) /
        ((((scoresFor s movieId).length + 1 : ℕ)) : ℚ) * 10) : ℤ) : ℚ) / 10 ∧
    scoresFor (addRating s movieId score).1 movieId =
      scoresFor s movieId ++ [score] := by
  have key := scoresFor_addRating s movieId score
  refine ⟨?_, ?_, key⟩
  · have : (addRating s movieId score).2.2 =
        (scoresFor (addRating s movieId score).1 movieId).length := rfl
    rw [this, key, List.length_append, List.length_cons, List.length_nil]
  · have : (addRating s movieId score).2.1 =
        pgAvg (scoresFor (addRating s movieId score).1 movieId) := rfl
    rw [this, key, pgAvg]
    simp [List.sum_append, List.length_append]

/-- A store with one movie (id 1) and one rating (score 5) on it. -/
def ratedStore : Store := ⟨[⟨1, "The Godfather", 1972, "Crime"⟩],
  [⟨1, 1, 5⟩], 2, 2⟩

/-- Witness for C9: rating movie 1 of `ratedStore` with score 4. -/
theorem addRating_spec_witness :
    (addRating ratedStore 1 4).2.2 = (scoresFor ratedStore 1).length + 1 ∧
    (addRating ratedStore 1 4).2.1 =
      ((pgRound ((((scoresFor ratedStore 1).sum + 4 : ℤ) : ℚ) /
        ((((scoresFor ratedStore 1).length + 1 : ℕ)) : ℚ) * 10) : ℤ) : ℚ) / 10 ∧
    scoresFor (addRating ratedStore 1 4).1 1 = scoresFor ratedStore 1 ++ [4] :=
  addRating_spec ratedStore 1 4 (by decide) (by decide)

/-! ### C10: finite non-integer ids reach the lookup and 404 -/

/-- C10: an id string coercing to a finite non-integer is not rejected as
"Invalid ID": since every stored movie id is an integer the lookup misses,
so the detail handler returns 404 "Not found", and the rate handler (given a
valid score) returns 404 "Not found" with the store unchanged; neither
handler returns "Invalid ID" for such an id. -/
theorem nonInteger_id_not_found (s : Store) (t : String) (q : ℚ)
    (hq : q.den ≠ 1) :
    getMovieById s q = none ∧
    getMovieDetailHandler s (.str t (some q)) = .notFound ∧
    getMovieDetailHandler s (.str t (some q)) ≠ .invalidId ∧
    (∀ scorev : JSValue, isValidRating scorev = true →
      rateMovieHandler s (.str t (some q)) scorev = (s, .notFound)) ∧
    (∀ scorev : JSValue,
      (rateMovieHandler s (.str t (some q)) scorev).2 ≠ .invalidId) := by
  have hnone : getMovieById s q = none := by
    rw [getMovieById, List.find?_eq_none]
    intro m _
    simp only [beq_iff_eq]
    intro hEq
    have : q.den = 1 := by
      rw [← hEq]
      exact Rat.den_intCast m.id
    exact hq this
  refine ⟨hnone, ?_, ?_, ?_, ?_⟩
  · simp [getMovieDetailHandler, toNumber, hnone]
  · simp [getMovieDetailHandler, toNumber, hnone]
  · intro scorev hval
    obtain ⟨qs, hsc⟩ : ∃ qs, toNumber scorev = some qs := by
      cases hsc : toNumber scorev with
      | none => simp [isValidRating, hsc] at hval
      | some qs => exact ⟨qs, rfl⟩
    have hc : ¬ (¬ (isIntegerQ qs = true) ∨ qs < 1 ∨ 5 < qs) := by
      rw [rate_cond_iff_not_valid scorev qs hsc]
      simp [hval]
    have hidv : toNumber (JSValue.str t (some q)) = some q := rfl
    simp only [rateMovieHandler, hidv, hsc]
    rw [if_neg hc]
    simp [hnone]
  · intro scorev
    have hidv : toNumber (JSValue.str t (some q)) = some q := rfl
    cases hsc : toNumber scorev with
    | none => simp [rateMovieHandler, hidv, hsc]
    | some qs =>
        by_cases hc : (¬ (isIntegerQ qs = true) ∨ qs < 1 ∨ 5 < qs)
        · simp only [rateMovieHandler, hidv, hsc]
          rw [if_pos hc]
          simp
        · simp only [rateMovieHandler, hidv, hsc]
          rw [if_neg hc, hnone]
          simp

/-- Witness for C10: the id string "1.5" (coercing to 3/2) yields 404 on
both handlers over the one-movie store. -/
theorem nonInteger_id_not_found_witness :
    getMovieDetailHandler witnessStore (.str "1.5" (some (Rat.divInt 3 2)))
      = .notFound ∧
    rateMovieHandler witnessStore (.str "1.5" (some (Rat.divInt 3 2)))
      (.num 4) = (witnessStore, .notFound) := by
  have h := nonInteger_id_not_found witnessStore "1.5" (Rat.divInt 3 2)
    (by decide)
  exact ⟨h.2.1, h.2.2.2.1 (.num 4) (by decide)⟩

end MovieRater
